import Mathlib

/-!
Shallow embedding of the budget-prediction engine of `policy-simulation`
(`backend/config.py`, `backend/data_processor.py`, `backend/budget_predictor.py`).

Machine floats are modelled by `ℚ`.  Quantities the Python code obtains from
float square roots (`np.linalg.norm`) or from random sampling
(`np.random.normal`) are irrational or nondeterministic, so they enter the
embedding as explicit parameters, each documented at its definition.
Fallible Python code (exceptions such as `KeyError`, `ValueError`) is
modelled with `Except String`.
-/

namespace Config

/-- `Config.TOPK` (config.py line 19): number of nearest neighbours retrieved. -/
def TOPK : ℕ := 10

/-- `Config.TAU` (config.py line 20): similarity threshold, 0.1. -/
def TAU : ℚ := 1/10

end Config

/-- One row of the cleaned metadata table (the columns produced by
`DataProcessor.preprocess_csv_data`, data_processor.py lines 202-258, and by
`create_sample_dataset`).  Note the budget columns are named `initial_budget`
and `current_budget`; there is no column named `budget`. -/
structure Project where
  id : ℤ
  ministry : String
  bureau : String
  summary_text : String
  initial_budget : ℚ
  current_budget : ℚ
  project_name : String
  issue_text : String
  scale_category : String
  error_rate : ℚ
  rating : String
  year : ℤ
  outcomes : String
  description : String

/-- One raw CSV row after column selection/rename (data_processor.py lines
202-211).  `pd.to_numeric(errors='coerce')` turns unparsable cells into NaN,
modelled by `none`; raw text cells may be NaN (`none`) as well.
`embedding_tokens` stands for the numeric tokens that
`re.findall(r'-?\d+\.?\d*', str(row['embedding_sum']))` extracts from the
embedding cell; an empty or `'nan'` cell is `none` (lines 271-283). -/
structure CsvRow where
  id : ℤ
  ministry : String
  bureau : String
  summary_text : Option String
  initial_budget : Option ℚ
  current_budget : Option ℚ
  project_name : Option String
  issue_text : Option String
  scale_category : String
  error_rate : Option ℚ
  embedding_tokens : Option (List ℚ)

/-- Squared L2 norm of a vector; the float norm `np.linalg.norm v` is the
(usually irrational) square root of this. -/
def normSq (v : List ℚ) : ℚ := (v.map (fun x => x * x)).sum

/-- `np.dot` of two vectors. -/
def dotProduct (a b : List ℚ) : ℚ := (List.zipWith (· * ·) a b).sum

/-- Python `int()` truncation toward zero. -/
def pyInt (q : ℚ) : ℤ := if 0 ≤ q then ⌊q⌋ else ⌈q⌉

/-- `get_rating` inside `generate_rating_from_error` (data_processor.py lines
340-350); `none` models a NaN error rate. -/
def generate_rating_from_error (error_rate : Option ℚ) : String :=
  match error_rate with
  | none => "B"
  | some e =>
    if e = 0 then "B"
    else if e < 1/10 then "A"
    else if e < 3/10 then "B"
    else if e < 1/2 then "C"
    else "D"

/-- `get_outcomes` inside `generate_outcomes_description` (data_processor.py
lines 356-367). -/
def generate_outcomes_description (error_rate : Option ℚ) : String :=
  match error_rate with
  | none => "予測精度の評価が困難"
  | some e =>
    if e = 0 then "予測精度の評価が困難"
    else if e < 1/10 then "予測精度が高く、事業計画が適切に策定されている"
    else if e < 3/10 then "予測精度は良好で、一部改善の余地がある"
    else if e < 1/2 then "予測精度に改善の余地があり、計画の見直しが必要"
    else "予測精度が低く、大幅な計画の見直しが必要"

/-- `DataProcessor.preprocess_csv_data` (data_processor.py lines 227-260).
The pandas column operations (numeric fill, budget filter, text fill, text
filter, derived columns) are applied row-wise here; each derived column is a
function of the same row, so column order and row order commute.  The two
length filters keep a row when `initial_budget > 0` and when either cleaned
text is longer than 10 characters. -/
def preprocess_csv_data (rows : List CsvRow) : List Project :=
  let filled := rows.map (fun r =>
    { id := r.id
      ministry := r.ministry
      bureau := r.bureau
      summary_text := r.summary_text.getD ""
      initial_budget := r.initial_budget.getD 0
      current_budget := r.current_budget.getD 0
      project_name := r.project_name.getD ""
      issue_text := r.issue_text.getD ""
      scale_category := r.scale_category
      error_rate := r.error_rate.getD 0
      rating := generate_rating_from_error (some (r.error_rate.getD 0))
      year := 2024
      outcomes := generate_outcomes_description (some (r.error_rate.getD 0))
      description := r.summary_text.getD "" : Project })
  (filled.filter (fun p => 0 < p.initial_budget)).filter
    (fun p => 10 < p.summary_text.length ∨ 10 < p.issue_text.length)

/-- `DataProcessor.parse_embedding_string` (data_processor.py lines 304-328).
`numbers` stands for the numeric tokens extracted by `re.findall` from the
raw cell string; the function returns `None` when fewer than 100 tokens are
found, otherwise truncates to the first 1536 values or zero-pads up to
length 1536. -/
def parse_embedding_string (numbers : List ℚ) : Option (List ℚ) :=
  if 100 ≤ numbers.length then
    some (if 1536 < numbers.length then numbers.take 1536
          else numbers ++ List.replicate (1536 - numbers.length) 0)
  else none

/-- `DataProcessor.generate_random_embedding` (data_processor.py lines
330-336).  `sample` stands for the drawn `np.random.normal(0, 0.1, 1536)`
vector and `norm` for its float L2 norm (irrational over `ℚ`, hence a
parameter); the vector is divided by the norm when the norm is positive. -/
def generate_random_embedding (sample : List ℚ) (norm : ℚ) : List ℚ :=
  if 0 < norm then sample.map (· / norm) else sample

/-- Body of the per-row loop of `process_csv_embeddings` (data_processor.py
lines 268-287): parse the embedding cell, falling back to a fresh random
embedding when the cell is empty/NaN or parsing yields `None`. -/
def process_csv_row (r : CsvRow) (sample : List ℚ) (sampleNorm : ℚ) : List ℚ :=
  match r.embedding_tokens with
  | none => generate_random_embedding sample sampleNorm
  | some toks =>
    match parse_embedding_string toks with
    | some v => v
    | none => generate_random_embedding sample sampleNorm

/-- Row normalization at the end of `process_csv_embeddings`
(data_processor.py lines 291-294): each row is divided by its norm, with
zero norms replaced by 1.  `norms i` stands for the float
`np.linalg.norm` of row `i`. -/
def normalize_embedding_rows (rows : List (List ℚ)) (norms : ℕ → ℚ) : List (List ℚ) :=
  rows.enum.map (fun p => p.2.map (· / (if norms p.1 = 0 then 1 else norms p.1)))

/-- `DataProcessor.process_csv_embeddings` (data_processor.py lines 262-302):
one embedding row is appended for every row of the *unfiltered* input
DataFrame `df`.  `sample i` / `sampleNorm i` stand for the random vector and
its norm drawn at the i-th fallback, `norms i` for the final row norms. -/
def process_csv_embeddings (df : List CsvRow) (sample : ℕ → List ℚ)
    (sampleNorm : ℕ → ℚ) (norms : ℕ → ℚ) : List (List ℚ) :=
  normalize_embedding_rows
    (df.enum.map (fun p => process_csv_row p.2 (sample p.1) (sampleNorm p.1))) norms

/-- The single synthetic record of `create_sample_dataset`
(data_processor.py lines 24-38). -/
def sample_project : Project :=
  { id := 1
    ministry := "サンプル省庁"
    bureau := "サンプル局"
    summary_text := "サンプル事業の概要です"
    initial_budget := 50000000
    current_budget := 0
    project_name := "サンプル事業"
    issue_text := "サンプル事業の課題です"
    scale_category := "中規模"
    error_rate := 1/5
    rating := "B"
    year := 2024
    outcomes := "サンプル事業の成果です"
    description := "サンプル事業の説明です" }

/-- `DataProcessor.create_sample_dataset` (data_processor.py lines 19-47):
one synthetic project and one random embedding row divided by its norm
(line 44 has no zero-norm guard).  `sample` / `sampleNorm` stand for the
drawn random vector and its float norm. -/
def create_sample_dataset (sample : List ℚ) (sampleNorm : ℚ) :
    List Project × List (List ℚ) :=
  ([sample_project], [sample.map (· / sampleNorm)])

/-- `DataProcessor.load_csv_data` success path (data_processor.py lines
184-221): metadata is the column-selected, preprocessed (filtered) table,
while the embedding matrix is built from the *unfiltered* DataFrame.  File
I/O and the fallback `except` branch (line 222-225, which returns
`create_sample_dataset`) sit outside this pure core. -/
def load_csv_data (df : List CsvRow) (sample : ℕ → List ℚ)
    (sampleNorm : ℕ → ℚ) (norms : ℕ → ℚ) : List Project × List (List ℚ) :=
  (preprocess_csv_data df, process_csv_embeddings df sample sampleNorm norms)

/-- The two persisted artifacts (`data/embeddings.npy`, `data/metadata.pkl`);
`none` models a file missing on disk.  `np.save`/`np.load` round-trip a
float array exactly and `pickle` round-trips the DataFrame exactly, so
persistence is modelled as exact storage. -/
structure Store where
  vectorFile : Option (List (List ℚ))
  metadataFile : Option (List Project)

/-- The saving half of `prepare_vector_database` (data_processor.py lines
92-101): write both artifacts. -/
def save_database (metadata : List Project) (embeddings : List (List ℚ))
    (_st : Store) : Store :=
  { vectorFile := some embeddings, metadataFile := some metadata }

/-- All external inputs of one ingestion run: the raw CSV rows plus the
random draws and float norms consumed by the dataset builder. -/
structure IngestSource where
  df : List CsvRow
  sample : ℕ → List ℚ
  sampleNorm : ℕ → ℚ
  norms : ℕ → ℚ
  fallbackSample : List ℚ
  fallbackSampleNorm : ℚ

/-- `DataProcessor.prepare_vector_database` (data_processor.py lines 81-106):
build the pair (sample dataset or CSV dataset) and persist both artifacts. -/
def prepare_vector_database (src : IngestSource) (use_sample_data : Bool)
    (st : Store) : Store :=
  let pair :=
    if use_sample_data then create_sample_dataset src.fallbackSample src.fallbackSampleNorm
    else load_csv_data src.df src.sample src.sampleNorm src.norms
  save_database pair.1 pair.2 st

/-- `DataProcessor.load_vector_database` (data_processor.py lines 108-125):
if either artifact is missing, rebuild via
`prepare_vector_database(use_sample_data=False)`; then read both files. -/
def load_vector_database (src : IngestSource) (st : Store) :
    (List (List ℚ) × List Project) × Store :=
  let st1 := if st.vectorFile.isNone || st.metadataFile.isNone
             then prepare_vector_database src false st else st
  ((st1.vectorFile.getD [], st1.metadataFile.getD []), st1)

/-- `DataProcessor.calculate_similarity` (data_processor.py lines 140-149):
normalize the query by its L2 norm when positive, then dot it with every
stored row.  `query_norm` stands for the float `np.linalg.norm` of the
query (irrational over `ℚ`, hence a parameter). -/
def calculate_similarity (query_norm : ℚ) (query_embedding : List ℚ)
    (project_embeddings : List (List ℚ)) : List ℚ :=
  let q := if 0 < query_norm then query_embedding.map (· / query_norm)
           else query_embedding
  project_embeddings.map (fun row => dotProduct row q)

/-- Ascending comparison on (row index, score) pairs modelling
`np.argsort(similarities)`: by score, ties by original index.  The tie
order is a modelling choice, not a program guarantee: numpy's default
quicksort is non-stable beyond its small-array insertion-sort cutoff, so
general theorems below rely only on the score ordering, never on the
modelled tie order; a concrete tie order is used only at small instances
(where numpy's insertion sort does keep original index order). -/
def simLe (a b : ℕ × ℚ) : Prop := a.2 < b.2 ∨ (a.2 = b.2 ∧ a.1 ≤ b.1)

instance : DecidableRel simLe := fun a b => by unfold simLe; infer_instance

instance : IsTotal (ℕ × ℚ) simLe := by
  constructor
  intro a b
  rcases lt_trichotomy a.2 b.2 with h | h | h
  · exact Or.inl (Or.inl h)
  · rcases Nat.le_total a.1 b.1 with h1 | h1
    · exact Or.inl (Or.inr ⟨h, h1⟩)
    · exact Or.inr (Or.inr ⟨h.symm, h1⟩)
  · exact Or.inr (Or.inl h)

instance : IsTrans (ℕ × ℚ) simLe := by
  constructor
  intro a b c hab hbc
  rcases hab with h1 | ⟨h1, h1i⟩
  · rcases hbc with h2 | ⟨h2, _⟩
    · exact Or.inl (h1.trans h2)
    · exact Or.inl (h2 ▸ h1)
  · rcases hbc with h2 | ⟨h2, h2i⟩
    · exact Or.inl (h1 ▸ h2)
    · exact Or.inr ⟨h1.trans h2, h1i.trans h2i⟩

/-- `np.argsort(similarities)[::-1][:top_k]` of
`find_similar_projects` (data_processor.py lines 151-163), kept as
(index, score) pairs; `p.2` equals `similarities[p.1]` for every produced
pair, so returning scores and indices below is the source's
`similarities[top_indices], top_indices`. -/
def top_pairs (similarities : List ℚ) (top_k : ℕ) : List (ℕ × ℚ) :=
  ((List.insertionSort simLe similarities.enum).reverse).take top_k

/-- `DataProcessor.find_similar_projects` (data_processor.py lines 151-163):
returns the top-k scores (descending) and their row indices. -/
def find_similar_projects (similarities : List ℚ) (top_k : ℕ) :
    List ℚ × List ℕ :=
  ((top_pairs similarities top_k).map Prod.snd,
   (top_pairs similarities top_k).map Prod.fst)

/-- `DataProcessor.get_project_by_index` (data_processor.py lines 165-174):
raises (here `.error`) when the index is out of range of the metadata
table. -/
def get_project_by_index (metadata : List Project) (index : ℕ) :
    Except String Project :=
  if h : index < metadata.length then .ok (metadata.get ⟨index, h⟩)
  else .error ("インデックス " ++ toString index ++ " が範囲外です")

/-- `DataProcessor.get_projects_by_indices` (data_processor.py lines
176-182): the loop appending one project per index, propagating the
out-of-range exception. -/
def get_projects_by_indices (metadata : List Project) :
    List ℕ → Except String (List Project)
  | [] => .ok []
  | i :: rest => do
    let p ← get_project_by_index metadata i
    let ps ← get_projects_by_indices metadata rest
    .ok (p :: ps)

/-- One row of the `topk_df` DataFrame built at budget_predictor.py lines
48-51: a metadata row plus the attached `similarity` and `weight` columns. -/
structure Candidate where
  project : Project
  similarity : ℚ
  weight : ℚ

/-- `BudgetPredictor._calculate_weights` (budget_predictor.py lines 58-70):
each similarity divided by the sum of all of them. -/
def _calculate_weights (similarities : List ℚ) : List ℚ :=
  similarities.map (· / similarities.sum)

/-- Numeric cell lookup in one `topk_df` row.  The frame's columns are the
metadata columns plus `similarity` and `weight`; any other name — notably
`'budget'`, which is never a column of the metadata — raises a pandas
`KeyError`, modelled by `none`. -/
def candidate_num_column (c : Candidate) : String → Option ℚ
  | "id" => some (c.project.id : ℚ)
  | "initial_budget" => some c.project.initial_budget
  | "current_budget" => some c.project.current_budget
  | "error_rate" => some c.project.error_rate
  | "year" => some (c.project.year : ℚ)
  | "similarity" => some c.similarity
  | "weight" => some c.weight
  | _ => none

/-- Reading a numeric column `topk_df[name]` of the candidate frame: a
missing column name raises `KeyError` (both call sites below guard the
empty frame first, so the empty case is unreachable from them). -/
def df_num_column (name : String) : List Candidate → Except String (List ℚ)
  | [] => .ok []
  | c :: rest =>
    match candidate_num_column c name with
    | none => .error ("KeyError: " ++ name)
    | some v => do
      let vs ← df_num_column name rest
      .ok (v :: vs)

/-- `BudgetPredictor._predict_budget` (budget_predictor.py lines 72-89):
`np.sum(topk_df['budget'] * topk_df['weight'])`.  The column read
`topk_df['budget']` raises `KeyError` because the frame only has
`initial_budget`/`current_budget`. -/
def _predict_budget (topk_df : List Candidate) : Except String ℚ :=
  if topk_df.length = 0 then .ok 0
  else do
    let budgets ← df_num_column "budget" topk_df
    let weights ← df_num_column "weight" topk_df
    .ok (List.zipWith (· * ·) budgets weights).sum

/-- Lines 30-51 of `predict_budget_from_query_embeddings`: similarity
search, threshold filter (`similarities >= Config.TAU`), metadata row
fetch, and attachment of the `similarity` and `weight` columns.
`query_norm` stands for the float norm of the query vector. -/
def build_topk_df (embeddings : List (List ℚ)) (metadata : List Project)
    (query_embedding : List ℚ) (query_norm : ℚ) :
    Except String (List Candidate) :=
  let sims := calculate_similarity query_norm query_embedding embeddings
  let valid := (top_pairs sims Config.TOPK).filter (fun p => Config.TAU ≤ p.2)
  do
    let projs ← get_projects_by_indices metadata (valid.map Prod.fst)
    let ws := _calculate_weights (valid.map Prod.snd)
    .ok (List.zipWith3 (fun pr p w => ⟨pr, p.2, w⟩) projs valid ws)

/-- `BudgetPredictor.predict_budget_from_query_embeddings`
(budget_predictor.py lines 15-56): returns `(0.0, empty frame)` when no
candidate reaches the threshold, otherwise the weighted prediction and the
candidate frame. -/
def predict_budget_from_query_embeddings (embeddings : List (List ℚ))
    (metadata : List Project) (query_embedding : List ℚ) (query_norm : ℚ) :
    Except String (ℚ × List Candidate) := do
  let topk_df ← build_topk_df embeddings metadata query_embedding query_norm
  if topk_df.length = 0 then .ok (0, [])
  else do
    let pb ← _predict_budget topk_df
    .ok (pb, topk_df)

/-- `BudgetPredictor._get_evaluation_text` (budget_predictor.py lines
201-218). -/
def _get_evaluation_text (rating : String) : String :=
  if rating = "A" then "高評価、目標達成、効果的"
  else if rating = "B" then "良好、概ね目標達成、一部改善の余地あり"
  else if rating = "C" then "要改善、一部目標未達、改善が必要"
  else if rating = "D" then "低評価、目標未達、大幅な改善が必要"
  else "評価情報なし"

/-- One entry of `similar_cases` (budget_predictor.py lines 177-190). -/
structure SimilarCase where
  id : ℤ
  name : String
  budget : String
  eval : String
  evalText : String
  details : String
  similarity : ℚ
  weight : ℚ
  year : ℤ
  ministry : String
  bureau : String
  scale_category : String

/-- The dictionary built per row at budget_predictor.py lines 177-190
(note it reads `row['initial_budget']`, unlike the aggregates above it). -/
def make_similar_case (c : Candidate) : SimilarCase :=
  { id := c.project.id
    name := c.project.project_name
    budget := toString (pyInt c.project.initial_budget)
    eval := c.project.rating
    evalText := c.project.rating ++ "評価: " ++ _get_evaluation_text c.project.rating
    details := c.project.outcomes
    similarity := c.similarity
    weight := c.weight
    year := c.project.year
    ministry := c.project.ministry
    bureau := c.project.bureau
    scale_category := c.project.scale_category }

/-- The analysis-result dictionary.  The `error` key is only present in the
exception response (budget_predictor.py line 236); `Option` models key
presence: `none` = key absent. -/
structure AnalysisResult where
  predicted_budget : ℚ
  average_budget : ℚ
  case_count : ℕ
  similar_cases : List SimilarCase
  message : String
  error : Option Bool

/-- The zero-result dictionary returned when no similar project was found
(budget_predictor.py lines 162-169); it carries no `error` key. -/
def no_similar_result : AnalysisResult :=
  { predicted_budget := 0
    average_budget := 0
    case_count := 0
    similar_cases := []
    message := "類似の事業が見つかりませんでした"
    error := none }

/-- `BudgetPredictor._format_analysis_result` (budget_predictor.py lines
151-199).  On a non-empty frame, line 172 reads `topk_df['budget'].mean()`,
which raises `KeyError` since the frame has no `budget` column. -/
def _format_analysis_result (predicted_budget : ℚ) (topk_df : List Candidate) :
    Except String AnalysisResult :=
  if topk_df.length = 0 then .ok no_similar_result
  else do
    let budgets ← df_num_column "budget" topk_df
    let average_budget := budgets.sum / (topk_df.length : ℚ)
    let similar_cases := topk_df.map make_similar_case
    .ok { predicted_budget := predicted_budget
          average_budget := average_budget
          case_count := similar_cases.length
          similar_cases := similar_cases
          message := "分析が完了しました"
          error := none }

/-- `BudgetPredictor._create_error_response` (budget_predictor.py lines
220-237): the zero shape plus the `error: True` key. -/
def _create_error_response (error_message : String) : AnalysisResult :=
  { predicted_budget := 0
    average_budget := 0
    case_count := 0
    similar_cases := []
    message := "エラーが発生しました: " ++ error_message
    error := some true }

/-- The body of `analyze_query`'s `try` block (budget_predictor.py lines
102-124): obtain the query embedding, predict, format.  `embed_result`
models the OpenAI embedding call (or the sample-vector fallback), which may
itself fail; `query_norm` is the float norm of the obtained vector. -/
def analysis_pipeline (embed_result : Except String (List ℚ))
    (query_norm : ℚ) (embeddings : List (List ℚ)) (metadata : List Project) :
    Except String AnalysisResult := do
  let q ← embed_result
  let pair ← predict_budget_from_query_embeddings embeddings metadata q query_norm
  _format_analysis_result pair.1 pair.2

/-- `BudgetPredictor.analyze_query` (budget_predictor.py lines 91-128): the
`try`/`except` boundary turning any pipeline exception into the structured
error response. -/
def analyze_query (embed_result : Except String (List ℚ)) (query_norm : ℚ)
    (embeddings : List (List ℚ)) (metadata : List Project) : AnalysisResult :=
  match analysis_pipeline embed_result query_norm embeddings metadata with
  | .ok r => r
  | .error e => _create_error_response e

/-- A CSV row whose 当初予算 (initial-budget) cell is 0: `preprocess_csv_data`
drops it, while `process_csv_embeddings` still emits an embedding row for
it. -/
def zero_budget_row : CsvRow :=
  { id := 1
    ministry := ""
    bureau := ""
    summary_text := some "123456789012"
    initial_budget := some 0
    current_budget := some 0
    project_name := some "p"
    issue_text := some ""
    scale_category := ""
    error_rate := some 0
    embedding_tokens := none }

/-- A metadata row with initial budget 100, for concrete evaluations. -/
def project_a : Project :=
  { id := 1
    ministry := ""
    bureau := ""
    summary_text := ""
    initial_budget := 100
    current_budget := 0
    project_name := "事業A"
    issue_text := ""
    scale_category := ""
    error_rate := 0
    rating := "B"
    year := 2024
    outcomes := ""
    description := "" }

/-- A metadata row with initial budget 200, for concrete evaluations. -/
def project_b : Project :=
  { id := 2
    ministry := ""
    bureau := ""
    summary_text := ""
    initial_budget := 200
    current_budget := 0
    project_name := "事業B"
    issue_text := ""
    scale_category := ""
    error_rate := 0
    rating := "B"
    year := 2024
    outcomes := ""
    description := "" }

/-- A trivial ingestion source, for concrete evaluations of the store. -/
def empty_source : IngestSource :=
  { df := []
    sample := fun _ => []
    sampleNorm := fun _ => 0
    norms := fun _ => 0
    fallbackSample := []
    fallbackSampleNorm := 0 }

@[simp] lemma except_ok_bind {α β : Type} (a : α) (f : α → Except String β) :
    (Except.ok a >>= f) = f a := rfl

@[simp] lemma except_error_bind {α β : Type} (e : String) (f : α → Except String β) :
    ((Except.error e : Except String α) >>= f) = Except.error e := rfl

@[simp] lemma except_pure_eq {α : Type} (a : α) :
    (pure a : Except String α) = Except.ok a := rfl

lemma except_bind_ok_iff {α β : Type} {x : Except String α}
    {f : α → Except String β} {b : β} :
    (x >>= f) = .ok b ↔ ∃ a, x = .ok a ∧ f a = .ok b := by
  cases x <;> simp

lemma sum_map_div (l : List ℚ) (d : ℚ) : (l.map (· / d)).sum = l.sum / d := by
  induction l with
  | nil => simp
  | cons x xs ih => simp [ih, add_div]

lemma normSq_cons (x : ℚ) (l : List ℚ) : normSq (x :: l) = x * x + normSq l := by
  simp [normSq]

lemma normSq_replicate_zero (k : ℕ) : normSq (List.replicate k (0:ℚ)) = 0 := by
  induction k with
  | zero => simp [normSq]
  | succ n ih => simp [List.replicate_succ, normSq_cons, ih]

lemma normSq_map_div (l : List ℚ) (n : ℚ) :
    normSq (l.map (· / n)) = normSq l / (n * n) := by
  induction l with
  | nil => simp [normSq]
  | cons x xs ih => simp [normSq_cons, ih, add_div, div_mul_div_comm]

lemma top_pairs_sorted (sims : List ℚ) (k : ℕ) :
    List.Pairwise (fun p q : ℕ × ℚ => q.2 < p.2 ∨ (p.2 = q.2 ∧ q.1 < p.1))
      (top_pairs sims k) := by
  have hs : List.Pairwise simLe (List.insertionSort simLe sims.enum) :=
    List.sorted_insertionSort simLe sims.enum
  have hnd : List.Pairwise (fun p q : ℕ × ℚ => p.1 ≠ q.1)
      (List.insertionSort simLe sims.enum) := by
    have hperm := List.perm_insertionSort simLe sims.enum
    have h1 : (List.map Prod.fst (List.insertionSort simLe sims.enum)).Nodup := by
      rw [(hperm.map Prod.fst).nodup_iff, List.enum_map_fst]
      exact List.nodup_range _
    exact List.pairwise_map.mp h1
  have hrev : List.Pairwise (fun p q : ℕ × ℚ => q.2 < p.2 ∨ (p.2 = q.2 ∧ q.1 < p.1))
      (List.insertionSort simLe sims.enum).reverse := by
    rw [List.pairwise_reverse]
    refine (hs.and hnd).imp ?_
    rintro a b ⟨hab, hne⟩
    rcases hab with h | ⟨hv, hi⟩
    · exact Or.inl h
    · exact Or.inr ⟨hv.symm, lt_of_le_of_ne hi hne⟩
  exact List.Pairwise.sublist (List.take_sublist k _) hrev

lemma df_num_column_budget_error (c : Candidate) (rest : List Candidate) :
    df_num_column "budget" (c :: rest) = .error ("KeyError: " ++ "budget") := rfl

lemma mem_zipWith3 {α β γ δ : Type} {f : α → β → γ → δ} :
    ∀ {as : List α} {bs : List β} {cs : List γ} {x : δ},
      x ∈ List.zipWith3 f as bs cs → ∃ a ∈ as, ∃ b ∈ bs, ∃ c ∈ cs, x = f a b c := by
  intro as
  induction as with
  | nil => intro bs cs x h; simp [List.zipWith3] at h
  | cons a as ih =>
    intro bs cs x h
    cases bs with
    | nil => simp [List.zipWith3] at h
    | cons b bs =>
      cases cs with
      | nil => simp [List.zipWith3] at h
      | cons c cs =>
        rw [List.zipWith3] at h
        rcases List.mem_cons.mp h with h | h
        · exact ⟨a, List.mem_cons_self _ _, b, List.mem_cons_self _ _,
            c, List.mem_cons_self _ _, h⟩
        · obtain ⟨a', ha, b', hb, c', hc, hx⟩ := ih h
          exact ⟨a', List.mem_cons_of_mem _ ha, b', List.mem_cons_of_mem _ hb,
            c', List.mem_cons_of_mem _ hc, hx⟩

lemma format_ok_shape (pb : ℚ) (topk_df : List Candidate) (r : AnalysisResult)
    (h : _format_analysis_result pb topk_df = .ok r) : r = no_similar_result := by
  cases topk_df with
  | nil =>
    simp [_format_analysis_result] at h
    exact h.symm
  | cons c rest =>
    rw [_format_analysis_result] at h
    simp [df_num_column_budget_error] at h

lemma pipeline_ok_shape (er : Except String (List ℚ)) (qn : ℚ)
    (embeddings : List (List ℚ)) (metadata : List Project) (r : AnalysisResult)
    (h : analysis_pipeline er qn embeddings metadata = .ok r) :
    r = no_similar_result := by
  unfold analysis_pipeline at h
  rw [except_bind_ok_iff] at h
  obtain ⟨q, _, h⟩ := h
  rw [except_bind_ok_iff] at h
  obtain ⟨pair, _, hfmt⟩ := h
  exact format_ok_shape _ _ _ hfmt

lemma process_csv_embeddings_length (df : List CsvRow) (sample : ℕ → List ℚ)
    (sampleNorm : ℕ → ℚ) (norms : ℕ → ℚ) :
    (process_csv_embeddings df sample sampleNorm norms).length = df.length := by
  simp [process_csv_embeddings, normalize_embedding_rows]

lemma pipeline_budget_keyerror :
    analysis_pipeline (.ok [1]) 1 [[9/10], [1/2]] [project_a, project_b] =
      .error ("KeyError: " ++ "budget") := by
  have hb : build_topk_df [[9/10], [1/2]] [project_a, project_b] [1] 1 =
      .ok [⟨project_a, 9/10, (9/10) / (9/10 + 1/2)⟩,
           ⟨project_b, 1/2, (1/2) / (9/10 + 1/2)⟩] := by
    norm_num [build_topk_df, calculate_similarity, dotProduct, top_pairs,
      List.insertionSort, List.orderedInsert, List.enum, List.enumFrom, simLe,
      Config.TOPK, Config.TAU, get_projects_by_indices, get_project_by_index,
      _calculate_weights, List.zipWith3]
  simp only [analysis_pipeline, predict_budget_from_query_embeddings, except_ok_bind]
  rw [hb]
  simp [_predict_budget, df_num_column_budget_error]

/-- Claim C1 (code bug).  The spec's alignment invariant
`len(metadata) == embedding_matrix.row_count` is violated on the normal CSV
path: for a single CSV row whose initial budget is 0, `preprocess_csv_data`
drops the row from the metadata (0 rows) while `process_csv_embeddings`,
applied to the unfiltered DataFrame, still produces 1 embedding row.  On the
synthetic-fallback path (`create_sample_dataset`) the counts do agree
(1 = 1). -/
theorem C1_alignment_code_bug :
    ((load_csv_data [zero_budget_row] (fun _ => List.replicate 1536 0) (fun _ => 0)
        (fun _ => 1)).1.length = 0 ∧
     (load_csv_data [zero_budget_row] (fun _ => List.replicate 1536 0) (fun _ => 0)
        (fun _ => 1)).2.length = 1) ∧
    (create_sample_dataset (List.replicate 1536 0) 1).1.length =
      (create_sample_dataset (List.replicate 1536 0) 1).2.length := by
  refine ⟨⟨?_, ?_⟩, rfl⟩
  · norm_num [load_csv_data, preprocess_csv_data, zero_budget_row]
  · rw [load_csv_data, process_csv_embeddings_length]
    rfl

/-- Claim C2 (code bug).  With two candidates of budgets 100 and 200 and
similarities 0.9 and 0.5 (the spec's concrete scenario), `_predict_budget`
reads the non-existent column `topk_df['budget']` and raises `KeyError`, so
`analyze_query` returns the error response with `predicted_budget = 0`
instead of the claimed Σ(initial_budget × weight): the weights the filter
produces are [9/14, 5/14] and the claimed prediction would be
100·9/14 + 200·5/14 = 950/7 ≈ 135.7. -/
theorem C2_budget_column_code_bug :
    analysis_pipeline (.ok [1]) 1 [[9/10], [1/2]] [project_a, project_b] =
      .error ("KeyError: " ++ "budget") ∧
    (analyze_query (.ok [1]) 1 [[9/10], [1/2]] [project_a, project_b]).predicted_budget
      = 0 ∧
    (analyze_query (.ok [1]) 1 [[9/10], [1/2]] [project_a, project_b]).average_budget
      = 0 ∧
    (analyze_query (.ok [1]) 1 [[9/10], [1/2]] [project_a, project_b]).error
      = some true ∧
    _calculate_weights [9/10, 1/2] = [9/14, 5/14] ∧
    (List.zipWith (· * ·) [project_a.initial_budget, project_b.initial_budget]
      [9/14, 5/14]).sum = 950/7 := by
  refine ⟨pipeline_budget_keyerror, ?_, ?_, ?_, ?_, ?_⟩
  · unfold analyze_query; rw [pipeline_budget_keyerror]; rfl
  · unfold analyze_query; rw [pipeline_budget_keyerror]; rfl
  · unfold analyze_query; rw [pipeline_budget_keyerror]; rfl
  · norm_num [_calculate_weights]
  · norm_num [project_a, project_b]

/-- Claim C3 (counterexample).  For the stored matrix [[1], [1]] and query
[1] both rows score exactly 1, and `find_similar_projects` returns the row
indices as [1, 0]: equal scores appear in *descending* original row order
(the code ascending-argsorts and then reverses), not in the ascending order
the claim states. -/
theorem C3_tie_order_counterexample :
    find_similar_projects (calculate_similarity 1 [1] [[1], [1]]) 10 = ([1, 1], [1, 0]) ∧
    ([1, 0] : List ℕ) ≠ [0, 1] := by
  constructor
  · norm_num [find_similar_projects, top_pairs, calculate_similarity, dotProduct,
      List.insertionSort, List.orderedInsert, List.enum, List.enumFrom, simLe]
  · decide

/-- Claim C3 (amended).  For every stored matrix and query vector the
similarity search returns candidates ordered by descending cosine score,
reproducibly for identical inputs, and every returned (index, score) pair
reports the stored similarity of that row.  The claim's
ties-in-ascending-row-order clause is dropped (the counterexample refutes
it; the code reverses an ascending argsort, and numpy's default sort makes
no stability guarantee, so no particular tie order is asserted).  Both
conclusions hold for any correct sort of the similarities, independently of
the modelled tie order. -/
theorem C3_search_order_amended (query_norm : ℚ) (query_embedding : List ℚ)
    (rows : List (List ℚ)) (k : ℕ) :
    List.Pairwise (fun a b : ℚ => b ≤ a)
      ((find_similar_projects (calculate_similarity query_norm query_embedding rows) k).1) ∧
    (∀ p ∈ top_pairs (calculate_similarity query_norm query_embedding rows) k,
      (calculate_similarity query_norm query_embedding rows)[p.1]? = some p.2) := by
  constructor
  · have h2 : List.Pairwise (fun p q : ℕ × ℚ => q.2 ≤ p.2)
        (top_pairs (calculate_similarity query_norm query_embedding rows) k) := by
      refine (top_pairs_sorted _ _).imp ?_
      rintro a b (hlt | ⟨heq, _⟩)
      · exact le_of_lt hlt
      · exact le_of_eq heq.symm
    unfold find_similar_projects
    exact List.pairwise_map.mpr h2
  · intro p hp
    have h1 : p ∈ (List.insertionSort simLe
        (calculate_similarity query_norm query_embedding rows).enum).reverse :=
      (List.take_sublist k _).subset hp
    have h2 : p ∈ (calculate_similarity query_norm query_embedding rows).enum :=
      (List.perm_insertionSort simLe _).mem_iff.mp (List.mem_reverse.mp h1)
    exact List.mem_enum_iff_getElem?.mp h2

/-- Claim C4.  For every non-empty list of surviving similarities, each at
least τ = `Config.TAU`, the sum of the scores is strictly positive and the
weights produced by `_calculate_weights` sum exactly to 1. -/
theorem C4_weight_normalization (sims : List ℚ) (h1 : sims ≠ [])
    (h2 : ∀ s ∈ sims, Config.TAU ≤ s) :
    0 < sims.sum ∧ (_calculate_weights sims).sum = 1 := by
  have hpos : 0 < sims.sum := by
    refine List.sum_pos sims (fun x hx => ?_) h1
    have : (0:ℚ) < Config.TAU := by norm_num [Config.TAU]
    exact lt_of_lt_of_le this (h2 x hx)
  refine ⟨hpos, ?_⟩
  unfold _calculate_weights
  rw [sum_map_div]
  exact div_self (ne_of_gt hpos)

/-- Witness for C4 at the spec's concrete similarities [0.9, 0.5]. -/
theorem C4_weight_normalization_witness :
    (([(9:ℚ)/10, 1/2] : List ℚ) ≠ [] ∧ (∀ s ∈ [(9:ℚ)/10, 1/2], Config.TAU ≤ s)) ∧
    (0 < List.sum [(9:ℚ)/10, 1/2] ∧ (_calculate_weights [(9:ℚ)/10, 1/2]).sum = 1) := by
  have hne : ([(9:ℚ)/10, 1/2] : List ℚ) ≠ [] := by simp
  have hall : ∀ s ∈ [(9:ℚ)/10, 1/2], Config.TAU ≤ s := by
    intro s hs
    simp only [List.mem_cons, List.not_mem_nil, or_false] at hs
    rcases hs with h | h <;> rw [h] <;> norm_num [Config.TAU]
  exact ⟨⟨hne, hall⟩, C4_weight_normalization _ hne hall⟩

/-- Claim C5.  Every candidate row of a successfully built `topk_df` has
similarity at least τ = `Config.TAU` (so no below-threshold candidate
contributes to the weights or the predicted budget), and every entry of the
`similar_cases` list of any `analyze_query` response has similarity at
least τ. -/
theorem C5_threshold_filtering (embeddings : List (List ℚ)) (metadata : List Project)
    (q : List ℚ) (qn : ℚ) (topk_df : List Candidate)
    (h : build_topk_df embeddings metadata q qn = .ok topk_df) :
    (∀ c ∈ topk_df, Config.TAU ≤ c.similarity) ∧
    (∀ er : Except String (List ℚ), ∀ sc ∈ (analyze_query er qn embeddings metadata).similar_cases,
      Config.TAU ≤ sc.similarity) := by
  constructor
  · intro c hc
    unfold build_topk_df at h
    rw [except_bind_ok_iff] at h
    obtain ⟨projs, _, h⟩ := h
    simp only [Except.ok.injEq] at h
    subst h
    obtain ⟨pr, _, p, hp, w, _, hx⟩ := mem_zipWith3 hc
    subst hx
    exact of_decide_eq_true (List.mem_filter.mp hp).2
  · intro er sc hsc
    unfold analyze_query at hsc
    revert hsc
    cases hp : analysis_pipeline er qn embeddings metadata with
    | ok r =>
      rw [pipeline_ok_shape _ _ _ _ _ hp]
      intro hsc
      simp [no_similar_result] at hsc
    | error e =>
      intro hsc
      simp [_create_error_response] at hsc

/-- Witness for C5: one stored row with similarity 1 survives the filter. -/
theorem C5_threshold_filtering_witness :
    build_topk_df [[1]] [project_a] [1] 1 = .ok [⟨project_a, 1, 1⟩] ∧
    (∀ c ∈ [(⟨project_a, 1, 1⟩ : Candidate)], Config.TAU ≤ c.similarity) := by
  have h : build_topk_df [[1]] [project_a] [1] 1 = .ok [⟨project_a, 1, 1⟩] := by
    norm_num [build_topk_df, calculate_similarity, dotProduct, top_pairs,
      List.insertionSort, List.orderedInsert, List.enum, List.enumFrom, simLe,
      Config.TOPK, Config.TAU, get_projects_by_indices, get_project_by_index,
      _calculate_weights, List.zipWith3]
  exact ⟨h, (C5_threshold_filtering [[1]] [project_a] [1] 1 _ h).1⟩

/-- Claim C6.  When no candidate reaches the threshold τ, `analyze_query`
returns the zero-result response: `predicted_budget = 0`,
`average_budget = 0`, `case_count = 0`, `similar_cases = []`, an explanatory
message, and no `error` key. -/
theorem C6_zero_result (q : List ℚ) (qn : ℚ) (embeddings : List (List ℚ))
    (metadata : List Project)
    (h : (top_pairs (calculate_similarity qn q embeddings) Config.TOPK).filter
          (fun p => Config.TAU ≤ p.2) = []) :
    analyze_query (.ok q) qn embeddings metadata = no_similar_result ∧
    no_similar_result.predicted_budget = 0 ∧
    no_similar_result.average_budget = 0 ∧
    no_similar_result.case_count = 0 ∧
    no_similar_result.similar_cases = [] ∧
    no_similar_result.message = "類似の事業が見つかりませんでした" ∧
    no_similar_result.error = none := by
  refine ⟨?_, rfl, rfl, rfl, rfl, rfl, rfl⟩
  have hb : build_topk_df embeddings metadata q qn = .ok [] := by
    simp only [build_topk_df]
    rw [h]
    simp [get_projects_by_indices, _calculate_weights, List.zipWith3]
  unfold analyze_query analysis_pipeline
  simp only [except_ok_bind]
  rw [predict_budget_from_query_embeddings, hb]
  simp [_format_analysis_result]

/-- Witness for C6: a stored vector orthogonal to the query (score 0 < τ). -/
theorem C6_zero_result_witness :
    (top_pairs (calculate_similarity 1 [1] [[0]]) Config.TOPK).filter
      (fun p => Config.TAU ≤ p.2) = [] ∧
    analyze_query (.ok [1]) 1 [[0]] [] = no_similar_result ∧
    no_similar_result.error = none := by
  have h : (top_pairs (calculate_similarity 1 [1] [[0]]) Config.TOPK).filter
      (fun p => Config.TAU ≤ p.2) = [] := by
    norm_num [top_pairs, calculate_similarity, dotProduct, List.insertionSort,
      List.orderedInsert, List.enum, List.enumFrom, simLe, Config.TOPK, Config.TAU]
  have happ := C6_zero_result [1] 1 [[0]] [] h
  exact ⟨h, happ.1, happ.2.2.2.2.2.2⟩

/-- Claim C7.  Whenever the embedding/search/weighting/formatting pipeline
fails with any exception `e`, `analyze_query` returns (never throws) the
structured error response, which carries the zero-result shape plus
`error = true` and a human-readable message. -/
theorem C7_error_boundary (er : Except String (List ℚ)) (qn : ℚ)
    (embeddings : List (List ℚ)) (metadata : List Project) (e : String)
    (h : analysis_pipeline er qn embeddings metadata = .error e) :
    analyze_query er qn embeddings metadata = _create_error_response e ∧
    (_create_error_response e).predicted_budget = 0 ∧
    (_create_error_response e).average_budget = 0 ∧
    (_create_error_response e).case_count = 0 ∧
    (_create_error_response e).similar_cases = [] ∧
    (_create_error_response e).error = some true ∧
    (_create_error_response e).message = "エラーが発生しました: " ++ e := by
  refine ⟨?_, rfl, rfl, rfl, rfl, rfl, rfl⟩
  unfold analyze_query
  rw [h]

/-- Witness for C7 at a concrete failing pipeline (the `KeyError` raised on
the missing `budget` column). -/
theorem C7_error_boundary_witness :
    analysis_pipeline (.ok [1]) 1 [[9/10], [1/2]] [project_a, project_b] =
      .error ("KeyError: " ++ "budget") ∧
    analyze_query (.ok [1]) 1 [[9/10], [1/2]] [project_a, project_b] =
      _create_error_response ("KeyError: " ++ "budget") :=
  ⟨pipeline_budget_keyerror,
   (C7_error_boundary _ _ _ _ _ pipeline_budget_keyerror).1⟩

/-- Claim C8.  The embedding-cell parsing path always yields a vector of
length exactly 1536: with at least 100 extracted tokens the token list is
truncated to the first 1536 or right-padded with zeros; with fewer than 100
tokens parsing yields `None`, and the random substitute (with the true norm
of the sampled vector) has length 1536 and unit norm; per-cell processing
therefore yields length 1536 for empty and parsed cells alike. -/
theorem C8_embedding_parse (numbers : List ℚ) (sample : List ℚ) (n : ℚ)
    (hlen : sample.length = 1536) (hn : 0 < n) (hnorm : n * n = normSq sample) :
    (100 ≤ numbers.length →
      parse_embedding_string numbers =
        some (numbers.take 1536 ++ List.replicate (1536 - numbers.length) 0) ∧
      (numbers.take 1536 ++ List.replicate (1536 - numbers.length) 0).length = 1536) ∧
    (numbers.length < 100 → parse_embedding_string numbers = none) ∧
    (generate_random_embedding sample n).length = 1536 ∧
    normSq (generate_random_embedding sample n) = 1 ∧
    (∀ r : CsvRow, r.embedding_tokens = none ∨ r.embedding_tokens = some numbers →
      (process_csv_row r sample n).length = 1536) := by
  have hglen : (generate_random_embedding sample n).length = 1536 := by
    rw [generate_random_embedding, if_pos hn, List.length_map, hlen]
  have hparse : 100 ≤ numbers.length →
      parse_embedding_string numbers =
        some (numbers.take 1536 ++ List.replicate (1536 - numbers.length) 0) := by
    intro h100
    rw [parse_embedding_string, if_pos h100]
    rcases lt_or_le 1536 numbers.length with h | h
    · rw [if_pos h]
      have h0 : 1536 - numbers.length = 0 := by omega
      rw [h0]
      simp
    · rw [if_neg (not_lt.mpr h), List.take_of_length_le h]
  refine ⟨fun h100 => ⟨hparse h100, ?_⟩, fun hlt => ?_, hglen, ?_, ?_⟩
  · simp only [List.length_append, List.length_take, List.length_replicate]
    omega
  · rw [parse_embedding_string, if_neg (not_le.mpr hlt)]
  · rw [generate_random_embedding, if_pos hn, normSq_map_div, ← hnorm]
    exact div_self (mul_pos hn hn).ne'
  · intro r hr
    rcases hr with hr | hr
    · rw [process_csv_row, hr]
      exact hglen
    · rw [process_csv_row, hr]
      show (match parse_embedding_string numbers with
            | some v => v
            | none => generate_random_embedding sample n).length = 1536
      rcases le_or_lt 100 numbers.length with h100 | h100
      · simp only [hparse h100]
        simp only [List.length_append, List.length_take, List.length_replicate]
        omega
      · have hnone : parse_embedding_string numbers = none := by
          rw [parse_embedding_string, if_neg (not_le.mpr h100)]
        simp only [hnone]
        exact hglen

/-- Witness for C8: 100 tokens of value 1, and a substitute sample of
rational norm 1 (entries 3/5, 4/5, zeros). -/
theorem C8_embedding_parse_witness :
    (((3:ℚ)/5 :: (4:ℚ)/5 :: List.replicate 1534 (0:ℚ)).length = 1536 ∧
     (0:ℚ) < 1 ∧
     (1:ℚ) * 1 = normSq ((3:ℚ)/5 :: (4:ℚ)/5 :: List.replicate 1534 (0:ℚ))) ∧
    parse_embedding_string (List.replicate 100 (1:ℚ)) =
      some ((List.replicate 100 (1:ℚ)).take 1536 ++
        List.replicate (1536 - (List.replicate 100 (1:ℚ)).length) 0) ∧
    normSq (generate_random_embedding ((3:ℚ)/5 :: (4:ℚ)/5 :: List.replicate 1534 (0:ℚ)) 1)
      = 1 := by
  have h1 : ((3:ℚ)/5 :: (4:ℚ)/5 :: List.replicate 1534 (0:ℚ)).length = 1536 := by
    rw [List.length_cons, List.length_cons, List.length_replicate]
  have h2 : (0:ℚ) < 1 := by norm_num
  have h3 : (1:ℚ) * 1 = normSq ((3:ℚ)/5 :: (4:ℚ)/5 :: List.replicate 1534 (0:ℚ)) := by
    rw [normSq_cons, normSq_cons, normSq_replicate_zero]
    norm_num
  have happ := C8_embedding_parse (List.replicate 100 (1:ℚ)) _ _ h1 h2 h3
  refine ⟨⟨h1, h2, h3⟩, (happ.1 ?_).1, happ.2.2.2.1⟩
  rw [List.length_replicate]

/-- Claim C9.  Saving a metadata/matrix pair and then loading returns
exactly the saved pair; and when either persisted artifact is missing, load
performs the same full rebuild as `prepare_vector_database` (never a
partial pair). -/
theorem C9_store_roundtrip (metadata : List Project) (embeddings : List (List ℚ))
    (st : Store) (src : IngestSource)
    (hmiss : st.vectorFile = none ∨ st.metadataFile = none) :
    (load_vector_database src (save_database metadata embeddings st)).1 =
      (embeddings, metadata) ∧
    load_vector_database src st =
      load_vector_database src (prepare_vector_database src false st) := by
  constructor
  · rfl
  · have hb : (st.vectorFile.isNone || st.metadataFile.isNone) = true := by
      rcases hmiss with h | h <;> simp [h]
    simp [load_vector_database, prepare_vector_database, save_database, hb]

/-- Witness for C9 on an initially empty store. -/
theorem C9_store_roundtrip_witness :
    ((Store.mk none none).vectorFile = none ∨ (Store.mk none none).metadataFile = none) ∧
    (load_vector_database empty_source
        (save_database [sample_project] [[1]] (Store.mk none none))).1 =
      ([[1]], [sample_project]) ∧
    load_vector_database empty_source (Store.mk none none) =
      load_vector_database empty_source
        (prepare_vector_database empty_source false (Store.mk none none)) :=
  ⟨Or.inl rfl,
   (C9_store_roundtrip [sample_project] [[1]] (Store.mk none none) empty_source
      (Or.inl rfl)).1,
   (C9_store_roundtrip [sample_project] [[1]] (Store.mk none none) empty_source
      (Or.inl rfl)).2⟩

/-- Claim C10.  The `error` key of an `analyze_query` response is present
(with value `true`) exactly when the pipeline raised: responses from the
non-raising paths carry no `error` key at all. -/
theorem C10_error_key_presence (er : Except String (List ℚ)) (qn : ℚ)
    (embeddings : List (List ℚ)) (metadata : List Project) :
    (analyze_query er qn embeddings metadata).error =
      (match analysis_pipeline er qn embeddings metadata with
       | .ok _ => none
       | .error _ => some true) := by
  unfold analyze_query
  cases hp : analysis_pipeline er qn embeddings metadata with
  | ok r => rw [pipeline_ok_shape _ _ _ _ _ hp]; rfl
  | error e => rfl
